import Mathlib

/-!
Shallow embedding of the token-exchange backend in `src/main.py`.

The source is a Flask application with three endpoints
(`/facebook/token`, `/linkedin/token`, `/youtube/token`) that exchange an
OAuth authorization code at the provider's token endpoint and persist the
result to a Supabase table via `save_token_to_supabase`.

Modelling choices:
- JSON request bodies are `Option TokenRequest` (`request.get_json()` may
  yield `None`); individual fields are `Option String` because `dict.get`
  yields `None` for a missing key.
- Python truthiness (used by `if not all([...])`, `if not redirect_uri`,
  `if expires_in`, `refresh_token or None`) is made explicit: `none` and the
  empty string are falsy, the integer 0 is falsy.
- The outbound HTTP call is modelled by passing the provider's response
  (`HttpResp`: status, raw text, and the result of `res.json()` as an
  `Option TokenData`, `none` meaning the body does not parse) as a parameter;
  the `Outcome` records whether a call was issued and with which parameters.
- `requests` exceptions: `res.raise_for_status()` raises exactly when
  `400 ≤ status < 600`, and the raised `HTTPError` carries the response, so
  the `except requests.exceptions.RequestException` branch sees
  `e.response.text`. Calling `.get` on `None` raises `AttributeError`,
  caught by the generic `except Exception` branch.
- The Supabase upsert is modelled by a `storeErr : Option String` parameter:
  `some msg` means `.upsert(...).execute()` raises an exception rendered as
  `msg`; `save_token_to_supabase` re-raises it (`raise e`), modelled with
  `Except`.
- Time is an integer timestamp: `datetime.now(timezone.utc)` is the
  parameter `now` and `timedelta(seconds=n)` is `+ n`.
-/

namespace SchedulingBackend

/-- Python truthiness of an optional string: `None` and `""` are falsy. -/
def truthyStr : Option String → Bool
  | none => false
  | some s => !(s == "")

/-- Python `str.strip()`: drop leading and trailing whitespace. -/
def pyStrip (s : String) : String :=
  ⟨((s.data.dropWhile Char.isWhitespace).reverse.dropWhile
      Char.isWhitespace).reverse⟩

/-- A JSON scalar as it can appear in the `expires_in` field. -/
inductive JVal where
  | jint (n : Int)
  | jstr (s : String)
deriving DecidableEq

/-- Python truthiness of a JSON scalar: `0` and `""` are falsy. -/
def jTruthy : JVal → Bool
  | .jint n => !(n == 0)
  | .jstr s => !(s == "")

/-- Python `int(...)` on a JSON scalar; `none` models a raised `ValueError`. -/
def jToInt : JVal → Option Int
  | .jint n => some n
  | .jstr s => s.toInt?

/-- The JSON body of a token-exchange request, as read with `data.get`. -/
structure TokenRequest where
  code : Option String
  userId : Option String
  platform : Option String
  redirect_uri : Option String
  code_verifier : Option String
deriving DecidableEq

/-- The parsed JSON of a successful provider token response. -/
structure TokenData where
  access_token : Option String
  refresh_token : Option String
  expires_in : Option JVal
deriving DecidableEq

/-- A provider HTTP response: status code, raw text body, and the result of
`res.json()` (`none` when the body is not valid JSON, so `.json()` raises). -/
structure HttpResp where
  status : Nat
  text : String
  jsonBody : Option TokenData
deriving DecidableEq

/-- Environment configuration read via `get_env_var` / `os.getenv`. -/
structure Config where
  facebookClientId : String
  facebookClientSecret : String
  linkedinClientId : String
  linkedinClientSecret : String
  googleClientId : String
  googleClientSecret : String
  linkedinRedirectUriEnv : Option String
deriving DecidableEq

/-- The record upserted into the `social_connections` table. -/
structure SupabaseRecord where
  user_id : String
  platform : String
  access_token : Option String
  refresh_token : Option String
  expires_at : Option Int
deriving DecidableEq

/-- The parameters sent to a provider token endpoint (Facebook sends no
`grant_type`; only LinkedIn may send a `code_verifier`). -/
structure SentParams where
  client_id : String
  client_secret : String
  redirect_uri : String
  code : String
  grant_type : Option String
  code_verifier : Option String
deriving DecidableEq

/-- A Flask JSON response body: either an error object (`error`, optional
`details`, optional `hint`) or a success object (optional `message`). -/
inductive RespBody where
  | errBody (error : String) (details : Option String) (hint : Option String)
  | okBody (message : Option String)
deriving DecidableEq

/-- The `details` field of a response body, if any. -/
def RespBody.detailsOf : RespBody → Option String
  | .errBody _ d _ => d
  | .okBody _ => none

/-- Whether the response body is an error object. -/
def RespBody.isError : RespBody → Bool
  | .errBody _ _ _ => true
  | .okBody _ => false

/-- A Flask response: HTTP status plus JSON body. -/
structure FlaskResp where
  status : Nat
  body : RespBody
deriving DecidableEq

/-- The observable outcome of one handler invocation: the HTTP response, the
parameters of the outbound token-endpoint call if one was issued, whether
`save_token_to_supabase` was reached, the record that was successfully
upserted if any, and whether the redirect-uri fallback warning was printed. -/
structure Outcome where
  resp : FlaskResp
  sent : Option SentParams
  saveCalled : Bool
  upserted : Option SupabaseRecord
  warnedFallback : Bool
deriving DecidableEq

/-- An outcome on a path that issues no outbound call and touches no store. -/
def noCallOutcome (r : FlaskResp) : Outcome :=
  { resp := r, sent := none, saveCalled := false, upserted := none,
    warnedFallback := false }

/-- A Flask response from a status code and a body. -/
def mkResp (status : Nat) (b : RespBody) : FlaskResp :=
  { status := status, body := b }

/-- An outcome on a path that did issue the outbound token-endpoint call. -/
def callOutcome (r : FlaskResp) (p : SentParams) (sc : Bool)
    (up : Option SupabaseRecord) (w : Bool) : Outcome :=
  { resp := r, sent := some p, saveCalled := sc, upserted := up,
    warnedFallback := w }

/-- Token-endpoint request parameters from their components. -/
def mkParams (cid cs ru c : String) (gt cv : Option String) : SentParams :=
  { client_id := cid, client_secret := cs, redirect_uri := ru, code := c,
    grant_type := gt, code_verifier := cv }

/-- `if not all([code, user_id, platform])` from the handlers: all three
fields must be truthy. -/
def hasRequired (data : TokenRequest) : Bool :=
  truthyStr data.code && truthyStr data.userId && truthyStr data.platform

/-- The `expires_at` computation in `save_token_to_supabase`:
`expires_at = None; if expires_in: expires_at = now + int(expires_in)`.
An `Except.error` models `int(...)` raising on a truthy non-numeric string. -/
def expiresAtOf (now : Int) (expires_in : Option JVal) : Except String (Option Int) :=
  match expires_in with
  | none => .ok none
  | some v =>
    if jTruthy v then
      match jToInt v with
      | some n => .ok (some (now + n))
      | none => .error "invalid literal for int() with base 10"
    else .ok none

/-- `refresh_token or None`: a falsy value (missing or empty) becomes `None`. -/
def pyOrNone : Option String → Option String
  | none => none
  | some s => if s == "" then none else some s

/-- `save_token_to_supabase(user_id, platform, token_data)` from
`src/main.py`: builds the record and upserts it; any store exception is
re-raised (`raise e`), modelled by `storeErr`. -/
def save_token_to_supabase (now : Int) (storeErr : Option String)
    (user_id plat : String) (token_data : TokenData) :
    Except String SupabaseRecord :=
  match expiresAtOf now token_data.expires_in with
  | .error e => .error e
  | .ok expires_at =>
    let record_to_upsert : SupabaseRecord :=
      { user_id := user_id, platform := plat,
        access_token := token_data.access_token,
        refresh_token := pyOrNone token_data.refresh_token,
        expires_at := expires_at }
    match storeErr with
    | some e => .error e
    | none => .ok record_to_upsert

/-- `exchange_facebook_token` from `src/main.py` (route `/facebook/token`). -/
def exchange_facebook_token (cfg : Config) (now : Int) (storeErr : Option String)
    (body : Option TokenRequest) (res : HttpResp) : Outcome :=
  match body with
  | none =>
    noCallOutcome (mkResp 500 (.errBody "An internal server error occurred"
      (some "AttributeError: NoneType object has no attribute get") none))
  | some data =>
    if !(hasRequired data) then
      noCallOutcome (mkResp 400
        (.errBody "Missing code, userId, or platform" none none))
    else
      let warned := !(truthyStr data.redirect_uri)
      let redirect_uri :=
        if truthyStr data.redirect_uri then data.redirect_uri.getD ""
        else "http://localhost:8080/auth/callback"
      let params : SentParams :=
        mkParams cfg.facebookClientId cfg.facebookClientSecret redirect_uri
          (data.code.getD "") none none
      if 400 ≤ res.status ∧ res.status < 600 then
        callOutcome (mkResp 500
            (.errBody "Facebook token exchange failed" (some res.text) none))
          params false none warned
      else
        match res.jsonBody with
        | none =>
          callOutcome (mkResp 500 (.errBody "An internal server error occurred"
              (some "response body is not valid JSON") none))
            params false none warned
        | some token_data =>
          match save_token_to_supabase now storeErr (data.userId.getD "")
              (data.platform.getD "") token_data with
          | .error e =>
            callOutcome (mkResp 500
                (.errBody "An internal server error occurred" (some e) none))
              params true none warned
          | .ok rec =>
            callOutcome (mkResp 200 (.okBody none)) params true (some rec) warned

/-- `exchange_linkedin_token` from `src/main.py` (route `/linkedin/token`). -/
def exchange_linkedin_token (cfg : Config) (now : Int) (storeErr : Option String)
    (body : Option TokenRequest) (res : HttpResp) : Outcome :=
  match body with
  | none =>
    noCallOutcome (mkResp 400 (.errBody "No JSON data received" none none))
  | some data =>
    if !(hasRequired data) then
      noCallOutcome (mkResp 400
        (.errBody "Missing required fields (code, userId, platform)" none none))
    else
      let warned := !(truthyStr data.redirect_uri)
      let redirect_uri :=
        if truthyStr data.redirect_uri then pyStrip (data.redirect_uri.getD "")
        else cfg.linkedinRedirectUriEnv.getD "http://localhost:8080/auth/callback"
      let payload : SentParams :=
        mkParams cfg.linkedinClientId cfg.linkedinClientSecret redirect_uri
          (pyStrip (data.code.getD "")) (some "authorization_code")
          (if truthyStr data.code_verifier then
            some (pyStrip (data.code_verifier.getD ""))
          else none)
      if res.status ≠ 200 then
        callOutcome (mkResp res.status
            (.errBody "LinkedIn token exchange failed" (some res.text)
              (some ("Ensure " ++ redirect_uri ++
                " matches EXACTLY the URI used in your frontend logic."))))
          payload false none warned
      else
        match res.jsonBody with
        | none =>
          callOutcome (mkResp 500 (.errBody "Internal server error"
              (some "response body is not valid JSON") none))
            payload false none warned
        | some token_data =>
          match save_token_to_supabase now storeErr (data.userId.getD "")
              (data.platform.getD "") token_data with
          | .error e =>
            callOutcome (mkResp 500 (.errBody "Internal server error" (some e) none))
              payload true none warned
          | .ok rec =>
            callOutcome (mkResp 200 (.okBody (some "Token saved successfully")))
              payload true (some rec) warned

/-- `exchange_youtube_token` from `src/main.py` (route `/youtube/token`). -/
def exchange_youtube_token (cfg : Config) (now : Int) (storeErr : Option String)
    (body : Option TokenRequest) (res : HttpResp) : Outcome :=
  match body with
  | none =>
    noCallOutcome (mkResp 500 (.errBody "An internal server error occurred"
      (some "AttributeError: NoneType object has no attribute get") none))
  | some data =>
    if !(hasRequired data) then
      noCallOutcome (mkResp 400
        (.errBody "Missing code, userId, or platform" none none))
    else
      let warned := !(truthyStr data.redirect_uri)
      let redirect_uri :=
        if truthyStr data.redirect_uri then data.redirect_uri.getD ""
        else "http://localhost:8080/auth/callback"
      let params : SentParams :=
        mkParams cfg.googleClientId cfg.googleClientSecret redirect_uri
          (data.code.getD "") (some "authorization_code") none
      if 400 ≤ res.status ∧ res.status < 600 then
        callOutcome (mkResp 500
            (.errBody "Token exchange failed" (some res.text) none))
          params false none warned
      else
        match res.jsonBody with
        | none =>
          callOutcome (mkResp 500 (.errBody "An internal server error occurred"
              (some "response body is not valid JSON") none))
            params false none warned
        | some token_data =>
          match save_token_to_supabase now storeErr (data.userId.getD "")
              (data.platform.getD "") token_data with
          | .error e =>
            callOutcome (mkResp 500
                (.errBody "An internal server error occurred" (some e) none))
              params true none warned
          | .ok rec =>
            callOutcome (mkResp 200 (.okBody none)) params true (some rec) warned

/-- The response of the Facebook page-token lookup (step 1 of a page post):
status, raw text, and the `access_token` field of its JSON body, if any. -/
structure PageTokenResp where
  status : Nat
  text : String
  access_token : Option String
deriving DecidableEq

/-- A provider response with no JSON structure we need: status and raw text. -/
structure SimpleResp where
  status : Nat
  text : String
deriving DecidableEq

/-- Result of the Facebook page-post publish operation. -/
inductive PublishResult where
  | providerPublishError (status : Nat) (details : String)
  | missingPageTokenError
  | published (body : String)
deriving DecidableEq

/-- Outcome of a publish attempt: the result and whether the second call
(the feed-post request) was issued. -/
structure PublishOutcome where
  result : PublishResult
  feedCalled : Bool
deriving DecidableEq

/-- Modelled from the spec: the Facebook page-post publish relay is not under
`src/` (only the token-exchange handlers are). Per the spec, publish performs
two sequential calls: (1) GET the page object filtered to the `access_token`
field using the user token, to obtain a page-scoped access token; if that
call fails (non-2xx) the error is returned as `ProviderPublishError`, and if
it succeeds but the response omits `access_token`, the operation aborts with
`MissingPageTokenError` before attempting step 2; (2) otherwise POST
`\x7bmessage, access_token=pageToken\x7d` to the feed endpoint, returning the
provider body on 2xx and `ProviderPublishError` on non-2xx. -/
def publish_facebook_page_post (pageTokenRes : PageTokenResp)
    (feedRes : SimpleResp) : PublishOutcome :=
  if ¬(200 ≤ pageTokenRes.status ∧ pageTokenRes.status < 300) then
    { result := .providerPublishError pageTokenRes.status pageTokenRes.text,
      feedCalled := false }
  else
    match pageTokenRes.access_token with
    | none => { result := .missingPageTokenError, feedCalled := false }
    | some _ =>
      if ¬(200 ≤ feedRes.status ∧ feedRes.status < 300) then
        { result := .providerPublishError feedRes.status feedRes.text,
          feedCalled := true }
      else
        { result := .published feedRes.text, feedCalled := true }

/-! ### Concrete fixtures used by witnesses and counterexamples -/

/-- A concrete configuration. -/
def cfg0 : Config :=
  { facebookClientId := "fbid", facebookClientSecret := "fbsecret",
    linkedinClientId := "liid", linkedinClientSecret := "lisecret",
    googleClientId := "gid", googleClientSecret := "gsecret",
    linkedinRedirectUriEnv := some "https://env.example/cb" }

/-- A concrete well-formed token-exchange request. -/
def req0 : TokenRequest :=
  { code := some "abc", userId := some "u1", platform := some "linkedin",
    redirect_uri := some "https://app.example/cb", code_verifier := none }

/-- A concrete provider token payload. -/
def td0 : TokenData :=
  { access_token := some "tok123", refresh_token := none,
    expires_in := some (.jint 3600) }

/-- A provider token payload with no `access_token` field. -/
def tdNoTok : TokenData :=
  { access_token := none, refresh_token := none, expires_in := some (.jint 60) }

/-- `req0` with the `code` field missing. -/
def reqNoCode : TokenRequest :=
  { code := none, userId := some "u1", platform := some "linkedin",
    redirect_uri := some "https://app.example/cb", code_verifier := none }

/-- `req0` with a `redirect_uri` that carries surrounding whitespace. -/
def reqSpace : TokenRequest :=
  { code := some "abc", userId := some "u1", platform := some "linkedin",
    redirect_uri := some " https://app.example/cb", code_verifier := none }

/-- `req0` without a `redirect_uri`. -/
def reqNoRu : TokenRequest :=
  { code := some "abc", userId := some "u1", platform := some "linkedin",
    redirect_uri := none, code_verifier := none }

/-- A 200 provider response whose JSON body is `td0`. -/
def res200s : HttpResp := { status := 200, text := "okbody", jsonBody := some td0 }

/-- A 404 provider response. -/
def res404 : HttpResp := { status := 404, text := "err-body", jsonBody := none }

/-- A 200 provider response whose JSON body has no `access_token`. -/
def resNoTok : HttpResp :=
  { status := 200, text := "okbody", jsonBody := some tdNoTok }

/-- The `redirect_uri` that an outcome sent to the provider, if a call was
issued. -/
def sentRedirect (o : Outcome) : Option String :=
  o.sent.map SentParams.redirect_uri

/-- The outcome is an error response whose `details` is the given string and
whose execution never reached `save_token_to_supabase`. -/
def failsWithDetails (o : Outcome) (details : String) : Prop :=
  o.resp.body.isError = true ∧ o.resp.body.detailsOf = some details ∧
  o.saveCalled = false ∧ o.upserted = none

/-- The outcome is a 500 error response whose `details` is the given store
error, reached after `save_token_to_supabase` was called, with nothing
persisted. -/
def failsPersist (o : Outcome) (msg : String) : Prop :=
  o.resp.status = 500 ∧ o.resp.body.isError = true ∧
  o.resp.body.detailsOf = some msg ∧ o.saveCalled = true ∧ o.upserted = none

/-! ### Helper lemmas: parameters of the outbound call are fixed before the
response is inspected, so `sent` and `warnedFallback` are independent of the
provider response and the store. -/

theorem fb_call_observables (cfg : Config) (now : Int) (storeErr : Option String)
    (data : TokenRequest) (res : HttpResp) (hreq : hasRequired data = true) :
    (exchange_facebook_token cfg now storeErr (some data) res).sent =
      some (mkParams cfg.facebookClientId cfg.facebookClientSecret
        (if truthyStr data.redirect_uri then data.redirect_uri.getD ""
         else "http://localhost:8080/auth/callback")
        (data.code.getD "") none none) ∧
    (exchange_facebook_token cfg now storeErr (some data) res).warnedFallback =
      !(truthyStr data.redirect_uri) := by
  unfold exchange_facebook_token
  rcases hc : res.jsonBody with _ | td
  · by_cases h4 : 400 ≤ res.status ∧ res.status < 600 <;>
      simp [hreq, hc, h4, callOutcome, mkParams]
  · by_cases h4 : 400 ≤ res.status ∧ res.status < 600
    · simp [hreq, hc, h4, callOutcome, mkParams]
    · rcases hs : save_token_to_supabase now storeErr (data.userId.getD "")
          (data.platform.getD "") td with e | rec <;>
        simp [hreq, hc, h4, hs, callOutcome, mkParams]

theorem yt_call_observables (cfg : Config) (now : Int) (storeErr : Option String)
    (data : TokenRequest) (res : HttpResp) (hreq : hasRequired data = true) :
    (exchange_youtube_token cfg now storeErr (some data) res).sent =
      some (mkParams cfg.googleClientId cfg.googleClientSecret
        (if truthyStr data.redirect_uri then data.redirect_uri.getD ""
         else "http://localhost:8080/auth/callback")
        (data.code.getD "") (some "authorization_code") none) ∧
    (exchange_youtube_token cfg now storeErr (some data) res).warnedFallback =
      !(truthyStr data.redirect_uri) := by
  unfold exchange_youtube_token
  rcases hc : res.jsonBody with _ | td
  · by_cases h4 : 400 ≤ res.status ∧ res.status < 600 <;>
      simp [hreq, hc, h4, callOutcome, mkParams]
  · by_cases h4 : 400 ≤ res.status ∧ res.status < 600
    · simp [hreq, hc, h4, callOutcome, mkParams]
    · rcases hs : save_token_to_supabase now storeErr (data.userId.getD "")
          (data.platform.getD "") td with e | rec <;>
        simp [hreq, hc, h4, hs, callOutcome, mkParams]

theorem li_call_observables (cfg : Config) (now : Int) (storeErr : Option String)
    (data : TokenRequest) (res : HttpResp) (hreq : hasRequired data = true) :
    (exchange_linkedin_token cfg now storeErr (some data) res).sent =
      some (mkParams cfg.linkedinClientId cfg.linkedinClientSecret
        (if truthyStr data.redirect_uri then pyStrip (data.redirect_uri.getD "")
         else cfg.linkedinRedirectUriEnv.getD "http://localhost:8080/auth/callback")
        (pyStrip (data.code.getD "")) (some "authorization_code")
        (if truthyStr data.code_verifier then
          some (pyStrip (data.code_verifier.getD ""))
        else none)) ∧
    (exchange_linkedin_token cfg now storeErr (some data) res).warnedFallback =
      !(truthyStr data.redirect_uri) := by
  unfold exchange_linkedin_token
  by_cases h200 : res.status ≠ 200
  · simp [hreq, h200, callOutcome, mkParams]
  · rcases hc : res.jsonBody with _ | td
    · simp [hreq, h200, hc, callOutcome, mkParams]
    · rcases hs : save_token_to_supabase now storeErr (data.userId.getD "")
          (data.platform.getD "") td with e | rec <;>
        simp [hreq, h200, hc, hs, callOutcome, mkParams]

/-! ### Claims -/

/-- C1: for every token-exchange request on the Facebook, LinkedIn, or
YouTube endpoint whose JSON body is present but is missing any of the fields
`code`, `userId`, or `platform`, the handler returns a 400 validation-error
response, issues no outbound HTTP call to the provider token endpoint, and
performs no credential-store upsert. -/
theorem C1_missing_required_field (cfg : Config) (now : Int)
    (storeErr : Option String) (data : TokenRequest) (res : HttpResp)
    (h : data.code = none ∨ data.userId = none ∨ data.platform = none) :
    exchange_facebook_token cfg now storeErr (some data) res =
      noCallOutcome (mkResp 400
        (.errBody "Missing code, userId, or platform" none none)) ∧
    exchange_linkedin_token cfg now storeErr (some data) res =
      noCallOutcome (mkResp 400
        (.errBody "Missing required fields (code, userId, platform)" none none)) ∧
    exchange_youtube_token cfg now storeErr (some data) res =
      noCallOutcome (mkResp 400
        (.errBody "Missing code, userId, or platform" none none)) := by
  have hf : hasRequired data = false := by
    rcases h with h | h | h <;> simp [hasRequired, truthyStr, h]
  refine ⟨?_, ?_, ?_⟩ <;>
    simp [exchange_facebook_token, exchange_linkedin_token,
      exchange_youtube_token, hf]

/-- Witness for C1 at a concrete request missing `code`. -/
theorem C1_missing_required_field_witness :
    reqNoCode.code = none ∧
    (exchange_facebook_token cfg0 0 none (some reqNoCode) res200s =
      noCallOutcome (mkResp 400
        (.errBody "Missing code, userId, or platform" none none)) ∧
    exchange_linkedin_token cfg0 0 none (some reqNoCode) res200s =
      noCallOutcome (mkResp 400
        (.errBody "Missing required fields (code, userId, platform)" none none)) ∧
    exchange_youtube_token cfg0 0 none (some reqNoCode) res200s =
      noCallOutcome (mkResp 400
        (.errBody "Missing code, userId, or platform" none none))) :=
  ⟨rfl, C1_missing_required_field cfg0 0 none reqNoCode res200s (Or.inl rfl)⟩

/-- C9: a request whose body is absent or not JSON (`request.get_json()`
yields `None`) is answered with a 500 internal-error response by the Facebook
and YouTube endpoints (the `None.get` AttributeError falls through to the
generic exception handler), while only the LinkedIn endpoint checks for a
missing JSON body and returns 400. -/
theorem C9_none_json_body (cfg : Config) (now : Int) (storeErr : Option String)
    (res : HttpResp) :
    exchange_facebook_token cfg now storeErr none res =
      noCallOutcome (mkResp 500 (.errBody "An internal server error occurred"
        (some "AttributeError: NoneType object has no attribute get") none)) ∧
    exchange_youtube_token cfg now storeErr none res =
      noCallOutcome (mkResp 500 (.errBody "An internal server error occurred"
        (some "AttributeError: NoneType object has no attribute get") none)) ∧
    exchange_linkedin_token cfg now storeErr none res =
      noCallOutcome (mkResp 400 (.errBody "No JSON data received" none none)) :=
  ⟨rfl, rfl, rfl⟩

/-- C10: an `expires_in` of 0 or of the empty string is falsy, so the
upserted record's `expires_at` is `null`, exactly as when `expires_in` is
absent: presence is tested by truthiness, not key membership. -/
theorem C10_falsy_expires_in (now : Int) (uid plat : String)
    (atk rtk : Option String) :
    save_token_to_supabase now none uid plat ⟨atk, rtk, some (.jint 0)⟩ =
      .ok ⟨uid, plat, atk, pyOrNone rtk, none⟩ ∧
    save_token_to_supabase now none uid plat ⟨atk, rtk, some (.jstr "")⟩ =
      .ok ⟨uid, plat, atk, pyOrNone rtk, none⟩ ∧
    save_token_to_supabase now none uid plat ⟨atk, rtk, none⟩ =
      .ok ⟨uid, plat, atk, pyOrNone rtk, none⟩ :=
  ⟨rfl, rfl, rfl⟩

/-- C2 as stated is false: the Facebook handler guards the provider response
only with `raise_for_status()`, which raises for 4xx/5xx but not for 3xx, so
a 300-status provider response with a JSON body is parsed, persisted, and
reported as success instead of a failure carrying the raw body. -/
theorem C2_counterexample :
    ¬(200 ≤ (300 : Nat) ∧ (300 : Nat) < 300) ∧
    (exchange_facebook_token cfg0 0 none (some req0)
        ⟨300, "redirect", some td0⟩).resp.body = .okBody none ∧
    (exchange_facebook_token cfg0 0 none (some req0)
        ⟨300, "redirect", some td0⟩).resp.status = 200 ∧
    (exchange_facebook_token cfg0 0 none (some req0)
        ⟨300, "redirect", some td0⟩).upserted ≠ none := by
  refine ⟨by decide, ?_, ?_, ?_⟩ <;> decide

/-- C2 (amended): when the provider token endpoint returns an error response
(any status other than 200 on the LinkedIn endpoint; a 4xx or 5xx status on
the Facebook and YouTube endpoints), the handler returns a failure response
whose `details` equals the raw upstream body, `save_token_to_supabase` is
never reached, and no credential is persisted; this holds for every value of
the response JSON body, which is therefore never parsed as a credential. -/
theorem C2_provider_error (cfg : Config) (now : Int) (storeErr : Option String)
    (data : TokenRequest) (res : HttpResp) (hreq : hasRequired data = true) :
    (res.status ≠ 200 →
      failsWithDetails
        (exchange_linkedin_token cfg now storeErr (some data) res) res.text) ∧
    (400 ≤ res.status ∧ res.status < 600 →
      failsWithDetails
        (exchange_facebook_token cfg now storeErr (some data) res) res.text ∧
      failsWithDetails
        (exchange_youtube_token cfg now storeErr (some data) res) res.text) := by
  constructor
  · intro h200
    simp [exchange_linkedin_token, hreq, h200, failsWithDetails, callOutcome,
      mkResp, RespBody.isError, RespBody.detailsOf]
  · intro h46
    constructor <;>
      simp [exchange_facebook_token, exchange_youtube_token, hreq, h46.1, h46.2,
        failsWithDetails, callOutcome, mkResp, RespBody.isError,
        RespBody.detailsOf]

/-- Witness for C2 at a concrete 404 provider response. -/
theorem C2_provider_error_witness :
    hasRequired req0 = true ∧ res404.status ≠ 200 ∧
    (400 ≤ res404.status ∧ res404.status < 600) ∧
    failsWithDetails (exchange_linkedin_token cfg0 0 none (some req0) res404)
      res404.text ∧
    failsWithDetails (exchange_facebook_token cfg0 0 none (some req0) res404)
      res404.text ∧
    failsWithDetails (exchange_youtube_token cfg0 0 none (some req0) res404)
      res404.text := by
  have h := C2_provider_error cfg0 0 none req0 res404 (by decide)
  exact ⟨by decide, by decide, by decide, h.1 (by decide),
    (h.2 (by decide)).1, (h.2 (by decide)).2⟩

/-- C4 as stated is false on its boundary: a provider response that contains
`expires_in` with value 0 stores `expires_at = null`, not `now + 0`, because
`save_token_to_supabase` tests `expires_in` by truthiness. -/
theorem C4_counterexample :
    save_token_to_supabase 1000 none "u1" "facebook"
        ⟨some "tok", none, some (.jint 0)⟩ =
      .ok ⟨"u1", "facebook", some "tok", none, none⟩ ∧
    (Except.ok ⟨"u1", "facebook", some "tok", none, none⟩ :
        Except String SupabaseRecord) ≠
      .ok ⟨"u1", "facebook", some "tok", none, some (1000 + 0)⟩ := by
  refine ⟨rfl, ?_⟩
  intro h
  simp at h

/-- C4 (amended): for every successful exchange whose provider response
contains a truthy (nonzero) `expires_in = n`, the record passed to the store
upsert has `expires_at = now + n`; when `expires_in` is absent, `expires_at`
is left `null`. -/
theorem C4_expires_at (now n : Int) (uid plat : String)
    (atk rtk : Option String) (hn : n ≠ 0) :
    save_token_to_supabase now none uid plat ⟨atk, rtk, some (.jint n)⟩ =
      .ok ⟨uid, plat, atk, pyOrNone rtk, some (now + n)⟩ ∧
    save_token_to_supabase now none uid plat ⟨atk, rtk, none⟩ =
      .ok ⟨uid, plat, atk, pyOrNone rtk, none⟩ := by
  refine ⟨?_, rfl⟩
  simp [save_token_to_supabase, expiresAtOf, jTruthy, jToInt, hn]

/-- Witness for C4 at `expires_in = 3600`, `now = 1000`. -/
theorem C4_expires_at_witness :
    (3600 : Int) ≠ 0 ∧
    (save_token_to_supabase 1000 none "u1" "linkedin"
        ⟨some "tok123", none, some (.jint 3600)⟩ =
      .ok ⟨"u1", "linkedin", some "tok123", pyOrNone none, some (1000 + 3600)⟩ ∧
    save_token_to_supabase 1000 none "u1" "linkedin"
        ⟨some "tok123", none, none⟩ =
      .ok ⟨"u1", "linkedin", some "tok123", pyOrNone none, none⟩) :=
  ⟨by decide,
    C4_expires_at 1000 3600 "u1" "linkedin" (some "tok123") none (by decide)⟩

/-- C6 as stated is false: for a provider error the Facebook handler always
answers 500, even though the provider status (here 418) is available on the
raised `HTTPError`. -/
theorem C6_counterexample :
    (400 ≤ (418 : Nat) ∧ (418 : Nat) < 600) ∧
    (exchange_facebook_token cfg0 0 none (some req0)
        ⟨418, "teapot", none⟩).resp.status = 500 ∧
    (418 : Nat) ≠ 500 := by
  refine ⟨by decide, ?_, by decide⟩
  decide

/-- C6 (amended): only the LinkedIn endpoint forwards the provider status
code on a failed exchange; the Facebook and YouTube endpoints answer 500 for
every 4xx/5xx provider response, regardless of the provider status. -/
theorem C6_error_status (cfg : Config) (now : Int) (storeErr : Option String)
    (data : TokenRequest) (res : HttpResp) (hreq : hasRequired data = true) :
    (res.status ≠ 200 →
      (exchange_linkedin_token cfg now storeErr (some data) res).resp.status =
        res.status) ∧
    (400 ≤ res.status ∧ res.status < 600 →
      (exchange_facebook_token cfg now storeErr (some data) res).resp.status =
        500 ∧
      (exchange_youtube_token cfg now storeErr (some data) res).resp.status =
        500) := by
  constructor
  · intro h200
    simp [exchange_linkedin_token, hreq, h200, callOutcome, mkResp]
  · intro h46
    constructor <;>
      simp [exchange_facebook_token, exchange_youtube_token, hreq, h46.1,
        h46.2, callOutcome, mkResp]

/-- C3: when the provider exchange succeeded but the store upsert raises, the
store error propagates unchanged out of `save_token_to_supabase` and the
operation is reported to the caller as a 500 failure carrying that error,
with nothing persisted; the LinkedIn endpoint reaches the upsert only on a
200 provider status. -/
theorem C3_store_error (cfg : Config) (now : Int) (msg : String)
    (data : TokenRequest) (res : HttpResp) (td : TokenData) (ea : Option Int)
    (hreq : hasRequired data = true) (hjs : res.jsonBody = some td)
    (hea : expiresAtOf now td.expires_in = .ok ea)
    (h2xx : 200 ≤ res.status ∧ res.status < 300) :
    save_token_to_supabase now (some msg) (data.userId.getD "")
      (data.platform.getD "") td = .error msg ∧
    failsPersist (exchange_facebook_token cfg now (some msg) (some data) res)
      msg ∧
    failsPersist (exchange_youtube_token cfg now (some msg) (some data) res)
      msg ∧
    (res.status = 200 →
      failsPersist (exchange_linkedin_token cfg now (some msg) (some data) res)
        msg) := by
  have hsave : ∀ uid plat : String,
      save_token_to_supabase now (some msg) uid plat td = .error msg := by
    intro uid plat
    simp [save_token_to_supabase, hea]
  have hnot : ¬(400 ≤ res.status ∧ res.status < 600) := by omega
  refine ⟨hsave _ _, ?_, ?_, ?_⟩
  · simp [exchange_facebook_token, hreq, hjs, hnot, hsave, failsPersist,
      callOutcome, mkResp, RespBody.isError, RespBody.detailsOf]
  · simp [exchange_youtube_token, hreq, hjs, hnot, hsave, failsPersist,
      callOutcome, mkResp, RespBody.isError, RespBody.detailsOf]
  · intro h200
    simp [exchange_linkedin_token, hreq, hjs, h200, hsave, failsPersist,
      callOutcome, mkResp, RespBody.isError, RespBody.detailsOf]

/-- Witness for C3 at a concrete 200 exchange with a failing store. -/
theorem C3_store_error_witness :
    hasRequired req0 = true ∧ res200s.jsonBody = some td0 ∧
    expiresAtOf 0 td0.expires_in = .ok (some (0 + 3600)) ∧
    (200 ≤ res200s.status ∧ res200s.status < 300) ∧ res200s.status = 200 ∧
    save_token_to_supabase 0 (some "store down") (req0.userId.getD "")
      (req0.platform.getD "") td0 = .error "store down" ∧
    failsPersist
      (exchange_facebook_token cfg0 0 (some "store down") (some req0) res200s)
      "store down" ∧
    failsPersist
      (exchange_youtube_token cfg0 0 (some "store down") (some req0) res200s)
      "store down" ∧
    failsPersist
      (exchange_linkedin_token cfg0 0 (some "store down") (some req0) res200s)
      "store down" := by
  have h := C3_store_error cfg0 0 "store down" req0 res200s td0 (some (0 + 3600))
    (by decide) rfl rfl (by decide)
  exact ⟨by decide, rfl, rfl, by decide, rfl, h.1, h.2.1, h.2.2.1,
    h.2.2.2 rfl⟩

/-- C5 as stated is false: the LinkedIn handler strips the request-supplied
`redirect_uri` before sending it, so a value with surrounding whitespace is
not forwarded verbatim. -/
theorem C5_counterexample :
    reqSpace.redirect_uri = some " https://app.example/cb" ∧
    sentRedirect (exchange_linkedin_token cfg0 0 none (some reqSpace) res200s) =
      some "https://app.example/cb" ∧
    some "https://app.example/cb" ≠
      (some " https://app.example/cb" : Option String) := by
  refine ⟨rfl, ?_, by decide⟩
  decide

/-- C5 (amended): the `redirect_uri` sent to the provider token endpoint is
the request-supplied value when that value is truthy — verbatim on the
Facebook and YouTube endpoints, stripped of surrounding whitespace on the
LinkedIn endpoint; when it is absent (or empty), Facebook and YouTube fall
back to the hardcoded `http://localhost:8080/auth/callback` while LinkedIn
falls back to the `LINKEDIN_REDIRECT_URI` environment value (defaulting to
the same hardcoded URI), and in every fallback case a warning is surfaced to
the log. -/
theorem C5_redirect_uri (cfg : Config) (now : Int) (storeErr : Option String)
    (data : TokenRequest) (res : HttpResp) (u : String)
    (hreq : hasRequired data = true) :
    (data.redirect_uri = some u → u ≠ "" →
      sentRedirect (exchange_facebook_token cfg now storeErr (some data) res) =
        some u ∧
      (exchange_facebook_token cfg now storeErr (some data) res).warnedFallback =
        false ∧
      sentRedirect (exchange_youtube_token cfg now storeErr (some data) res) =
        some u ∧
      (exchange_youtube_token cfg now storeErr (some data) res).warnedFallback =
        false ∧
      sentRedirect (exchange_linkedin_token cfg now storeErr (some data) res) =
        some (pyStrip u) ∧
      (exchange_linkedin_token cfg now storeErr (some data) res).warnedFallback =
        false) ∧
    (truthyStr data.redirect_uri = false →
      sentRedirect (exchange_facebook_token cfg now storeErr (some data) res) =
        some "http://localhost:8080/auth/callback" ∧
      (exchange_facebook_token cfg now storeErr (some data) res).warnedFallback =
        true ∧
      sentRedirect (exchange_youtube_token cfg now storeErr (some data) res) =
        some "http://localhost:8080/auth/callback" ∧
      (exchange_youtube_token cfg now storeErr (some data) res).warnedFallback =
        true ∧
      sentRedirect (exchange_linkedin_token cfg now storeErr (some data) res) =
        some (cfg.linkedinRedirectUriEnv.getD
          "http://localhost:8080/auth/callback") ∧
      (exchange_linkedin_token cfg now storeErr (some data) res).warnedFallback =
        true) := by
  obtain ⟨hfs, hfw⟩ := fb_call_observables cfg now storeErr data res hreq
  obtain ⟨hys, hyw⟩ := yt_call_observables cfg now storeErr data res hreq
  obtain ⟨hls, hlw⟩ := li_call_observables cfg now storeErr data res hreq
  constructor
  · intro hu hne
    have htu : truthyStr (some u) = true := by simp [truthyStr, hne]
    refine ⟨?_, ?_, ?_, ?_, ?_, ?_⟩ <;>
      simp [sentRedirect, hfs, hfw, hys, hyw, hls, hlw, hu, htu, mkParams]
  · intro hf
    refine ⟨?_, ?_, ?_, ?_, ?_, ?_⟩ <;>
      simp [sentRedirect, hfs, hfw, hys, hyw, hls, hlw, hf, mkParams]

/-- Witness for C5 at a request with a `redirect_uri` and one without. -/
theorem C5_redirect_uri_witness :
    hasRequired req0 = true ∧
    req0.redirect_uri = some "https://app.example/cb" ∧
    "https://app.example/cb" ≠ "" ∧
    sentRedirect (exchange_facebook_token cfg0 0 none (some req0) res200s) =
      some "https://app.example/cb" ∧
    sentRedirect (exchange_linkedin_token cfg0 0 none (some req0) res200s) =
      some (pyStrip "https://app.example/cb") ∧
    truthyStr reqNoRu.redirect_uri = false ∧
    sentRedirect (exchange_facebook_token cfg0 0 none (some reqNoRu) res200s) =
      some "http://localhost:8080/auth/callback" ∧
    (exchange_facebook_token cfg0 0 none (some reqNoRu) res200s).warnedFallback =
      true ∧
    sentRedirect (exchange_linkedin_token cfg0 0 none (some reqNoRu) res200s) =
      some "https://env.example/cb" := by
  have h1 := (C5_redirect_uri cfg0 0 none req0 res200s "https://app.example/cb"
    (by decide)).1 rfl (by decide)
  have h2 := (C5_redirect_uri cfg0 0 none reqNoRu res200s ""
    (by decide)).2 (by decide)
  exact ⟨by decide, rfl, by decide, h1.1, h1.2.2.2.2.1, by decide,
    h2.1, h2.2.1, h2.2.2.2.2.1⟩

/-- C7: a successful (2xx) exchange whose provider JSON lacks `access_token`
still succeeds and the upserted record carries `access_token = null`; the
absence is not rejected or specially validated. -/
theorem C7_missing_access_token (cfg : Config) (now : Int)
    (data : TokenRequest) (res : HttpResp) (td : TokenData) (ea : Option Int)
    (hreq : hasRequired data = true) (hjs : res.jsonBody = some td)
    (hat : td.access_token = none)
    (hea : expiresAtOf now td.expires_in = .ok ea)
    (h2xx : 200 ≤ res.status ∧ res.status < 300) :
    (exchange_facebook_token cfg now none (some data) res).resp =
      mkResp 200 (.okBody none) ∧
    (exchange_facebook_token cfg now none (some data) res).upserted =
      some ⟨data.userId.getD "", data.platform.getD "", none,
        pyOrNone td.refresh_token, ea⟩ ∧
    (exchange_youtube_token cfg now none (some data) res).resp =
      mkResp 200 (.okBody none) ∧
    (exchange_youtube_token cfg now none (some data) res).upserted =
      some ⟨data.userId.getD "", data.platform.getD "", none,
        pyOrNone td.refresh_token, ea⟩ ∧
    (res.status = 200 →
      (exchange_linkedin_token cfg now none (some data) res).resp =
        mkResp 200 (.okBody (some "Token saved successfully")) ∧
      (exchange_linkedin_token cfg now none (some data) res).upserted =
        some ⟨data.userId.getD "", data.platform.getD "", none,
          pyOrNone td.refresh_token, ea⟩) := by
  have hsave : ∀ uid plat : String,
      save_token_to_supabase now none uid plat td =
        .ok ⟨uid, plat, none, pyOrNone td.refresh_token, ea⟩ := by
    intro uid plat
    simp [save_token_to_supabase, hea, hat]
  have hnot : ¬(400 ≤ res.status ∧ res.status < 600) := by omega
  refine ⟨?_, ?_, ?_, ?_, ?_⟩
  · simp [exchange_facebook_token, hreq, hjs, hnot, hsave, callOutcome, mkResp]
  · simp [exchange_facebook_token, hreq, hjs, hnot, hsave, callOutcome, mkResp]
  · simp [exchange_youtube_token, hreq, hjs, hnot, hsave, callOutcome, mkResp]
  · simp [exchange_youtube_token, hreq, hjs, hnot, hsave, callOutcome, mkResp]
  · intro h200
    constructor <;>
      simp [exchange_linkedin_token, hreq, hjs, h200, hsave, callOutcome,
        mkResp]

/-- Witness for C7 at a concrete 200 exchange with no `access_token`. -/
theorem C7_missing_access_token_witness :
    hasRequired req0 = true ∧ resNoTok.jsonBody = some tdNoTok ∧
    tdNoTok.access_token = none ∧
    expiresAtOf 0 tdNoTok.expires_in = .ok (some (0 + 60)) ∧
    (200 ≤ resNoTok.status ∧ resNoTok.status < 300) ∧
    (exchange_facebook_token cfg0 0 none (some req0) resNoTok).resp =
      mkResp 200 (.okBody none) ∧
    (exchange_facebook_token cfg0 0 none (some req0) resNoTok).upserted =
      some ⟨"u1", "linkedin", none, pyOrNone none, some (0 + 60)⟩ ∧
    (exchange_linkedin_token cfg0 0 none (some req0) resNoTok).upserted =
      some ⟨"u1", "linkedin", none, pyOrNone none, some (0 + 60)⟩ := by
  have h := C7_missing_access_token cfg0 0 req0 resNoTok tdNoTok (some (0 + 60))
    (by decide) rfl rfl rfl (by decide)
  exact ⟨by decide, rfl, rfl, rfl, by decide, h.1, h.2.1, (h.2.2.2.2 rfl).2⟩

/-- C8 (modelled from the spec, the publish relay being absent from `src/`):
when the Facebook page-token lookup succeeds (2xx) but its response contains
no `access_token` field, publish returns `MissingPageTokenError` and the
feed-post call is never issued. -/
theorem C8_missing_page_token (ptRes : PageTokenResp) (feedRes : SimpleResp)
    (h2xx : 200 ≤ ptRes.status ∧ ptRes.status < 300)
    (hat : ptRes.access_token = none) :
    publish_facebook_page_post ptRes feedRes =
      ⟨.missingPageTokenError, false⟩ := by
  unfold publish_facebook_page_post
  rw [if_neg (not_not_intro h2xx), hat]

/-- Witness for C8 at a concrete 200 lookup with no `access_token`. -/
theorem C8_missing_page_token_witness :
    (200 ≤ (200 : Nat) ∧ (200 : Nat) < 300) ∧
    publish_facebook_page_post ⟨200, "pagejson", none⟩ ⟨200, "feedjson"⟩ =
      ⟨.missingPageTokenError, false⟩ :=
  ⟨by decide, C8_missing_page_token ⟨200, "pagejson", none⟩ ⟨200, "feedjson"⟩
    (by decide) rfl⟩

/-- Witness for C6 at a concrete 404 provider response. -/
theorem C6_error_status_witness :
    hasRequired req0 = true ∧ res404.status ≠ 200 ∧
    (400 ≤ res404.status ∧ res404.status < 600) ∧
    (exchange_linkedin_token cfg0 0 none (some req0) res404).resp.status =
      res404.status ∧
    (exchange_facebook_token cfg0 0 none (some req0) res404).resp.status =
      500 ∧
    (exchange_youtube_token cfg0 0 none (some req0) res404).resp.status =
      500 := by
  have h := C6_error_status cfg0 0 none req0 res404 (by decide)
  exact ⟨by decide, by decide, by decide, h.1 (by decide),
    (h.2 (by decide)).1, (h.2 (by decide)).2⟩

end SchedulingBackend
